import Mathlib

/-!
# Verification of the detection-event aggregation pipeline of `streamlit_app.py`

This file shallowly embeds the data-handling logic of `src/streamlit_app.py`:
the column-count normalization in `load_data` (lines 54-64), the metric
computations `total_images` / `total_detections` / `detection_rate` /
`avg_detections_per_hour` (lines 100-103), the cumulative detection-rate series
`detection_cumsum` (lines 131-132), the hour parsing of the `Time` column
(lines 145-149), the heatmap bucketing `heatmap_data` (lines 152-161), the
`if not df.empty / else` branch structure of the script (lines 70-180), and
the name environment relevant to the final clock-update loop (lines 183-188).

Cells of the spreadsheet-backed table are strings, numbers, or null (pandas
`None`/`NaN`); a table carries one table-wide column count, exactly as the
script validates `len(df.columns)` once for the whole dataframe.
-/

/-- A spreadsheet cell as the script sees it after `conn.read`: a string, a
    number, or null (pandas `None`/`NaN`). -/
inductive Cell where
  | str (s : String)
  | num (n : Int)
  | null
deriving Repr, DecidableEq

/-- The raw table handed to `load_data`: a table-wide column count
    (`len(df.columns)`) and the rows, each a list of cells. -/
structure RawTable where
  numCols : Nat
  rows : List (List Cell)
deriving Repr, DecidableEq

/-- A normalized row, after `load_data` renames the columns: the four logical
    fields `Date`, `Time`, `Detection`, `Image_URL`. The structure type itself
    fixes exactly four fields, matching the spec's "exactly four logical
    fields" invariant. -/
structure Row where
  date : Cell
  time : Cell
  detection : Cell
  image_url : Cell
deriving Repr, DecidableEq

/-- The message of `st.error` at line 61:
    `f"Dataframe has {len(df.columns)} columns, but 3 or 4 columns are expected."` -/
def schemaErrorMsg (n : Nat) : String :=
  "Dataframe has " ++ toString n ++ " columns, but 3 or 4 columns are expected."

/-- `load_data`, lines 54-64 (the column-validation part; the network fetch is
    an external collaborator). 4 columns are renamed to
    `Date, Time, Detection, Image_URL`; 3 columns get `Image_URL = None`;
    any other count hits `st.error` + `st.stop`, modelled as `Except.error`
    carrying the error message. Missing cells in a ragged row read as null. -/
def load_data (t : RawTable) : Except String (List Row) :=
  if t.numCols = 4 then
    .ok (t.rows.map fun r =>
      ⟨r.getD 0 .null, r.getD 1 .null, r.getD 2 .null, r.getD 3 .null⟩)
  else if t.numCols = 3 then
    .ok (t.rows.map fun r =>
      ⟨r.getD 0 .null, r.getD 1 .null, r.getD 2 .null, .null⟩)
  else
    .error (schemaErrorMsg t.numCols)

/-- Substring search on character lists: `pat` occurs somewhere in `l`. -/
def subSearch (pat : List Char) : List Char → Bool
  | [] => pat.isPrefixOf ([] : List Char)
  | c :: t => pat.isPrefixOf (c :: t) || subSearch pat t

/-- `pat` occurs as a contiguous substring of `s`. -/
def containsStr (s pat : String) : Bool :=
  subSearch pat.toList s.toList

/-- Split a character list at every `':'`, like `"a:b:c".split(":")`. -/
def splitCols : List Char → List (List Char)
  | [] => [[]]
  | c :: t =>
    if c = ':' then [] :: splitCols t
    else
      match splitCols t with
      | [] => [[c]]
      | h :: r => (c :: h) :: r

/-- Decimal value of a digit run, accumulating left to right; `none` as soon
    as a non-digit appears. -/
def decValFrom (acc : Nat) : List Char → Option Nat
  | [] => some acc
  | c :: t => if c.isDigit then decValFrom (acc * 10 + (c.toNat - 48)) t else none

/-- Decimal value of a non-empty all-digit character run. -/
def decVal (l : List Char) : Option Nat :=
  match l with
  | [] => none
  | _ => decValFrom 0 l

/-- The hour extracted by `pd.to_datetime(s, format="%H:%M:%S")`: the string
    must be three `:`-separated decimal components with hour < 24,
    minute < 60, second < 60; the result is the hour. `none` models a
    parse failure (`ValueError`, or `NaT` under `errors="coerce"`). -/
def parseTimeHour (s : String) : Option Nat :=
  match splitCols s.toList with
  | [h, m, sec] =>
    match decVal h, decVal m, decVal sec with
    | some hh, some mm, some ss =>
      if hh < 24 && mm < 60 && ss < 60 then some hh else none
    | _, _, _ => none
  | _ => none

/-- Hour of a `Time` cell: only a string cell can parse as a time of day. -/
def cellHour (c : Cell) : Option Nat :=
  match c with
  | .str s => parseTimeHour s
  | _ => none

/-- Numeric value of a row's `Detection` cell, as pandas sums the column:
    the number it holds, `0` otherwise. -/
def flagOf (r : Row) : Int :=
  match r.detection with
  | .num n => n
  | _ => 0

/-- Line 100: `total_images = len(df)`. -/
def total_images (rows : List Row) : Nat := rows.length

/-- Line 101: `total_detections = df["Detection"].sum()`. -/
def total_detections (rows : List Row) : Int := (rows.map flagOf).sum

/-- Line 102: `detection_rate = (total_detections / total_images) * 100 if
    total_images > 0 else 0`. -/
def detection_rate (rows : List Row) : ℚ :=
  if 0 < total_images rows then
    (total_detections rows : ℚ) / (total_images rows : ℚ) * 100
  else 0

/-- Line 103: `avg_detections_per_hour = total_detections / 24 if
    total_detections > 0 else 0`. -/
def avg_detections_per_hour (rows : List Row) : ℚ :=
  if 0 < total_detections rows then (total_detections rows : ℚ) / 24 else 0

/-- Running sums of a list, starting from `acc`: the value at position `i` is
    `acc` plus the sum of the first `i+1` elements (pandas `cumsum`). -/
def cumsumFrom (acc : Int) : List Int → List Int
  | [] => []
  | x :: xs => (acc + x) :: cumsumFrom (acc + x) xs

/-- Line 132: `detection_cumsum = df["Detection"].cumsum() / (df.index + 1) * 100`.
    `df.index` is the default range index `0..n-1` over ALL rows of the
    dataframe, so the value at original position `i` is
    `cumsum[i] / (i + 1) * 100`, with no filtering by time validity.  (Line
    131 only builds the x-axis `time_series` with `errors="coerce"`; it does
    not drop rows from this series.) -/
def detection_cumsum (rows : List Row) : List ℚ :=
  (List.range rows.length).map fun i =>
    ((cumsumFrom 0 (rows.map flagOf)).getD i 0 : ℚ) / ((i : ℚ) + 1) * 100

/-- The subsequence of rows whose time parses (the spec's "filtered
    subsequence" of valid-time rows). -/
def validRows (rows : List Row) : List Row :=
  rows.filter fun r => (cellHour r.time).isSome

/-- Modelled from the spec: the `cumulative_rate_series` as §3 of the spec
    words it, for comparison with the code's `detection_cumsum` — "computed
    only over rows with a parseable time, using the index within that
    filtered subsequence": filter first, then index. -/
def cumulative_rate_series_spec (rows : List Row) : List ℚ :=
  (List.range (validRows rows).length).map fun i =>
    ((cumsumFrom 0 ((validRows rows).map flagOf)).getD i 0 : ℚ) / ((i : ℚ) + 1) * 100

/-- Line 146: `df["Hour"] = pd.to_datetime(df["Time"], format="%H:%M:%S").dt.hour`,
    with NO `errors="coerce"`: one unparseable value raises `ValueError` for
    the whole column, caught at lines 147-149 by `st.error` + `st.stop`.
    Success pairs every row with its parsed hour. -/
def parseHours : List Row → Except String (List (Row × Nat))
  | [] => .ok []
  | r :: rs =>
    match cellHour r.time with
    | some h => (parseHours rs).map fun rest => (r, h) :: rest
    | none => .error "Error parsing Time column"

/-- Lines 152-161: group by hour, sum `Detection`, then rebuild a 24-bucket
    table: for each `h in range(24)` the bucket holds the summed detections
    of hour `h` if that hour occurs, else 0 — extensionally, the sum of the
    flags of the rows whose parsed hour is `h`. -/
def heatmap_data (hrows : List (Row × Nat)) : List (Nat × Int) :=
  (List.range 24).map fun h =>
    (h, ((hrows.filter fun p => p.2 = h).map fun p => flagOf p.1).sum)

/-- What the metrics block (lines 99-180) leaves on the page: the numeric
    metrics and cumulative series come first (lines 100-139); then the hour
    parse (line 146) either fails — `st.stop`, recorded by `stopped = true`,
    the histogram and data table never produced — or succeeds and the
    heatmap (lines 152-176) and data table (line 180) follow. -/
structure MetricsOut where
  totalImages : Nat
  totalDetections : Int
  detectionRate : ℚ
  avgPerHour : ℚ
  cumSeries : List ℚ
  stopped : Bool
  histogram : Option (List (Nat × Int))
  dataTable : Option (List (Cell × Cell × Cell))
deriving Repr, DecidableEq

/-- The metrics block, lines 99-180, as a function of the normalized rows it
    reads from `df`. -/
def metricsBlock (rows : List Row) : MetricsOut :=
  match parseHours rows with
  | .error _ =>
    { totalImages := total_images rows
      totalDetections := total_detections rows
      detectionRate := detection_rate rows
      avgPerHour := avg_detections_per_hour rows
      cumSeries := detection_cumsum rows
      stopped := true
      histogram := none
      dataTable := none }
  | .ok hrows =>
    { totalImages := total_images rows
      totalDetections := total_detections rows
      detectionRate := detection_rate rows
      avgPerHour := avg_detections_per_hour rows
      cumSeries := detection_cumsum rows
      stopped := false
      histogram := some (heatmap_data hrows)
      dataTable := some (rows.map fun r => (r.date, r.time, r.detection)) }

/-- What one run of the script renders, after `load_data` succeeds. -/
structure ScriptOutput where
  live : Option Row
  metrics : Option MetricsOut
deriving Repr, DecidableEq

/-- Lines 67-180 of the script: `df = load_data()`, then
    `if not df.empty:` — the live-detection section reads the LAST row
    (line 71, `df.iloc[-1]`) — `else:` — the "No data available" warning and
    the whole historical-metrics block (lines 97-180), which therefore only
    ever runs on the empty dataframe. -/
def runScript (t : RawTable) : Except String ScriptOutput :=
  (load_data t).map fun rows =>
    if rows.isEmpty then
      { live := none, metrics := some (metricsBlock rows) }
    else
      { live := rows.getLast?, metrics := none }

/-- A Python statement reduced to its name-resolution behaviour: an assignment
    binds its target after resolving the names its right-hand side uses; an
    expression statement only resolves the names it uses. -/
inductive PyStmt where
  | assign (target : String) (uses : List String)
  | callStmt (uses : List String)
deriving Repr, DecidableEq

/-- The first name among `uses` that the environment does not bind, if any —
    the name whose lookup raises `NameError` in Python. -/
def firstUndefined (env : List String) (uses : List String) : Option String :=
  uses.find? fun n => !env.contains n

/-- Run statements under an environment of bound names: each statement resolves
    the names it uses; an unbound name raises `NameError` and nothing after it
    runs. Returns the final environment on success. -/
def runStmts : List String → List PyStmt → Except String (List String)
  | env, [] => .ok env
  | env, .assign tgt uses :: rest =>
    match firstUndefined env uses with
    | some n => .error ("NameError: name " ++ n ++ " is not defined")
    | none => runStmts (tgt :: env) rest
  | env, .callStmt uses :: rest =>
    match firstUndefined env uses with
    | some n => .error ("NameError: name " ++ n ++ " is not defined")
    | none => runStmts env rest

/-- How many of the statements complete before a `NameError` (all of them when
    no lookup fails). -/
def stmtsCompleted : List String → List PyStmt → Nat
  | _, [] => 0
  | env, .assign tgt uses :: rest =>
    match firstUndefined env uses with
    | some _ => 0
    | none => stmtsCompleted (tgt :: env) rest + 1
  | env, .callStmt uses :: rest =>
    match firstUndefined env uses with
    | some _ => 0
    | none => stmtsCompleted env rest + 1

/-- The module-level names bound by the script before the clock-update loop at
    lines 183-188 runs: the `import` statements of lines 1-10 bind
    `st, pd, datetime, timedelta, st_autorefresh, GSheetsConnection, plt, sns,
    Image, requests, BytesIO` (note: `from datetime import datetime, timedelta`
    binds only those two names, never `time`), and the top-level statements
    bind `clock_placeholder` (line 30), `gmt_plus_7` (line 33),
    `get_current_time` (line 36), `load_data` (line 44) and `df` (line 67).
    Branch-local names (`last_row`, `total_images`, ...) are irrelevant to the
    loop body and omitted; including them would not bind `time` either. -/
def scriptTopLevelNames : List String :=
  ["st", "pd", "datetime", "timedelta", "st_autorefresh", "GSheetsConnection",
   "plt", "sns", "Image", "requests", "BytesIO",
   "clock_placeholder", "gmt_plus_7", "get_current_time", "load_data", "df"]

/-- The body of `while True:` at lines 183-188, one name-resolution statement
    per line: `current_time = get_current_time()`;
    `clock_placeholder.subheader(f"{current_time}")`; `time.sleep(1)`;
    `st.cache_data.clear()`; `st.rerun()`. -/
def clockLoopBody : List PyStmt :=
  [ .assign "current_time" ["get_current_time"],
    .callStmt ["clock_placeholder", "current_time"],
    .callStmt ["time"],
    .callStmt ["st"],
    .callStmt ["st"] ]

/-- A normalized row with a well-formed time (hour 8) and flag 1. -/
def exRowGood : Row := ⟨.str "2024-12-04", .str "08:00:00", .num 1, .null⟩

/-- A normalized row whose time `"25:99:00"` does not parse, with flag 0. -/
def exRowBad : Row := ⟨.str "2024-12-04", .str "25:99:00", .num 0, .null⟩

/-- A table whose first row has an unparseable time: the valid-time
    subsequence is `[exRowGood]`. -/
def exMixed : List Row := [exRowBad, exRowGood]

/-- A non-empty 3-column raw table with one well-formed row. -/
def oneRowTable : RawTable :=
  ⟨3, [[.str "2024-12-04", .str "08:00:00", .num 1]]⟩

/-- A raw table with 5 columns. -/
def fiveColTable : RawTable :=
  ⟨5, [[.str "2024-12-04", .str "08:00:00", .num 1, .null, .null]]⟩

/-- A raw table with 2 columns (date and time only). -/
def twoColTable : RawTable :=
  ⟨2, [[.str "2024-12-04", .str "08:00:00"]]⟩

/-- An empty 3-column raw table. -/
def emptyTable : RawTable := ⟨3, []⟩

/-- A 4-column raw table with two rows, for the column-mapping witness. -/
def fourColTable : RawTable :=
  ⟨4, [[.str "2024-12-04", .str "08:00:00", .num 1, .str "http://img/1.jpg"],
       [.str "2024-12-05", .str "09:30:00", .num 0, .null]]⟩

/-! ## Helper lemmas -/

/-- The empty pattern occurs in every list. -/
theorem subSearch_nil (l : List Char) : subSearch [] l = true := by
  cases l <;> simp [subSearch, List.isPrefixOf]

/-- `subSearch` finds a pattern that literally sits between `a` and `b`. -/
theorem subSearch_append (pat a b : List Char) :
    subSearch pat (a ++ pat ++ b) = true := by
  induction a with
  | nil =>
    cases pat with
    | nil => exact subSearch_nil _
    | cons c t =>
      simp only [List.nil_append, List.cons_append, subSearch, Bool.or_eq_true]
      exact Or.inl (List.isPrefixOf_iff_prefix.mpr (List.prefix_append _ _))
  | cons c t ih =>
    cases pat with
    | nil => exact subSearch_nil _
    | cons p q =>
      simp only [List.cons_append, subSearch, Bool.or_eq_true]
      exact Or.inr ih

/-- `containsStr` holds whenever the string's characters split as
    `a ++ pat ++ b`. -/
theorem containsStr_of_parts (s pat : String) (a b : List Char)
    (h : s.toList = a ++ pat.toList ++ b) : containsStr s pat = true := by
  rw [containsStr, h]
  exact subSearch_append _ _ _

/-- `cumsumFrom` preserves length. -/
theorem cumsumFrom_length (acc : Int) (xs : List Int) :
    (cumsumFrom acc xs).length = xs.length := by
  induction xs generalizing acc with
  | nil => rfl
  | cons x xs ih => simp [cumsumFrom, ih]

/-- The `i`-th running sum is the accumulator plus the sum of the first
    `i + 1` elements. -/
theorem cumsumFrom_getD (xs : List Int) (acc : Int) (i : Nat)
    (h : i < xs.length) :
    (cumsumFrom acc xs).getD i 0 = acc + (xs.take (i + 1)).sum := by
  induction xs generalizing acc i with
  | nil => simp at h
  | cons x xs ih =>
    cases i with
    | zero => simp [cumsumFrom]
    | succ n =>
      have hn : n < xs.length := by simpa using h
      rw [cumsumFrom, List.getD_cons_succ, ih (acc + x) n hn,
        List.take_succ_cons, List.sum_cons]
      ring

/-- The cumulative series has one value per row of the table. -/
theorem detection_cumsum_length (rows : List Row) :
    (detection_cumsum rows).length = rows.length := by
  simp [detection_cumsum]

/-- Value of the cumulative series at original row position `i`: the sum of
    the flags of the first `i + 1` rows, divided by `i + 1`, times 100. -/
theorem detection_cumsum_getD (rows : List Row) (i : Nat)
    (h : i < rows.length) :
    (detection_cumsum rows).getD i 0 =
      (((rows.take (i + 1)).map flagOf).sum : ℚ) / ((i : ℚ) + 1) * 100 := by
  rw [detection_cumsum, List.getD_eq_getElem?_getD,
    List.getElem?_map _ (List.range rows.length) i, List.getElem?_range h,
    Option.map_some', Option.getD_some,
    cumsumFrom_getD _ 0 i (by simpa using h), zero_add,
    ← List.map_take]

/-- With one bad time in the table, the column-wide hour parse fails with
    the `ValueError` that lines 147-149 turn into `st.error` + `st.stop`. -/
theorem parseHours_error_of_bad (rows : List Row)
    (hbad : ∃ r ∈ rows, cellHour r.time = none) :
    parseHours rows = .error "Error parsing Time column" := by
  induction rows with
  | nil => simp at hbad
  | cons r rs ih =>
    obtain ⟨r0, hr0, hnone⟩ := hbad
    rcases List.mem_cons.mp hr0 with h0 | hmem
    · subst h0
      rw [parseHours, hnone]
    · cases hc : cellHour r.time with
      | none => rw [parseHours, hc]
      | some hh =>
        rw [parseHours, hc, ih ⟨r0, hmem, hnone⟩]
        rfl

/-- When the column-wide hour parse succeeds, the rows it pairs with hour `h`
    carry exactly the flags of the rows whose time parses to hour `h`. -/
theorem parseHours_ok_filter (rows : List Row) (hrows : List (Row × Nat))
    (hok : parseHours rows = .ok hrows) (h : Nat) :
    ((hrows.filter fun p => p.2 = h).map fun p => flagOf p.1)
      = (rows.filter fun r => cellHour r.time = some h).map flagOf := by
  induction rows generalizing hrows with
  | nil =>
    rw [parseHours] at hok
    cases hok
    rfl
  | cons r rs ih =>
    cases hc : cellHour r.time with
    | none => rw [parseHours, hc] at hok; cases hok
    | some hh =>
      rw [parseHours, hc] at hok
      cases hrs : parseHours rs with
      | error e => rw [hrs] at hok; cases hok
      | ok rest =>
        rw [hrs] at hok
        cases hok
        have ihr := ih rest hrs
        by_cases hhh : hh = h
        · subst hhh
          simp [List.filter_cons, hc, ihr]
        · simp [List.filter_cons, hc, hhh, ihr]

/-- Every flag in `{0, 1}`: the sum of the first `k` flags is between 0
    and `k`. -/
theorem flags_take_bounds (rows : List Row)
    (hf : ∀ r ∈ rows, flagOf r = 0 ∨ flagOf r = 1) (k : Nat) :
    0 ≤ ((rows.take k).map flagOf).sum ∧
      ((rows.take k).map flagOf).sum ≤ (k : Int) := by
  constructor
  · apply List.sum_nonneg
    intro x hx
    obtain ⟨r, hr, hxr⟩ := List.mem_map.mp hx
    rcases hf r (List.mem_of_mem_take hr) with h0 | h1
    · simp [← hxr, h0]
    · simp [← hxr, h1]
  · calc ((rows.take k).map flagOf).sum
        ≤ ((rows.take k).map flagOf).length • (1 : Int) := by
          apply List.sum_le_card_nsmul
          intro x hx
          obtain ⟨r, hr, hxr⟩ := List.mem_map.mp hx
          rcases hf r (List.mem_of_mem_take hr) with h0 | h1
          · simp [← hxr, h0]
          · simp [← hxr, h1]
      _ ≤ (k : Int) := by
          rw [nsmul_eq_mul, mul_one, List.length_map]
          exact_mod_cast List.length_take_le k rows

/-- Flags in `{0, 1}` make the total detection count non-negative. -/
theorem total_detections_nonneg (rows : List Row)
    (hf : ∀ r ∈ rows, flagOf r = 0 ∨ flagOf r = 1) :
    0 ≤ total_detections rows := by
  apply List.sum_nonneg
  intro x hx
  obtain ⟨r, hr, hxr⟩ := List.mem_map.mp hx
  rcases hf r hr with h0 | h1
  · simp [← hxr, h0]
  · simp [← hxr, h1]

/-! ## Claim theorems -/

/-- C1 counterexample: the claim says a 2-column table is accepted with
    `flag = 0` and `image_ref = none`; `load_data` instead hits the `else`
    branch (line 61, "3 or 4 columns are expected") and stops. -/
theorem two_column_table_rejected :
    load_data twoColTable = .error (schemaErrorMsg 2) := rfl

/-- C1 (amended): `load_data` accepts exactly the table-wide column counts 3
    and 4 (2 is rejected like any other count): with 4 columns the fields
    map positionally to (date, time, flag, image_ref); with 3 columns
    `image_ref` is null; the output has one normalized row per input row, in
    input order, and each normalized row is a `Row`, i.e. has exactly four
    logical fields. -/
theorem normalize_accepted_counts (t : RawTable) (rows : List Row)
    (hok : load_data t = .ok rows) :
    (t.numCols = 3 ∨ t.numCols = 4) ∧
    rows.length = t.rows.length ∧
    ∀ i (hi : i < rows.length) (hi2 : i < t.rows.length),
      (rows.get ⟨i, hi⟩).date = (t.rows.get ⟨i, hi2⟩).getD 0 Cell.null ∧
      (rows.get ⟨i, hi⟩).time = (t.rows.get ⟨i, hi2⟩).getD 1 Cell.null ∧
      (rows.get ⟨i, hi⟩).detection = (t.rows.get ⟨i, hi2⟩).getD 2 Cell.null ∧
      (rows.get ⟨i, hi⟩).image_url =
        (if t.numCols = 4 then (t.rows.get ⟨i, hi2⟩).getD 3 Cell.null
         else Cell.null) := by
  rw [load_data] at hok
  by_cases h4 : t.numCols = 4
  · rw [if_pos h4] at hok
    cases hok
    refine ⟨Or.inr h4, by simp, ?_⟩
    intro i hi hi2
    simp [h4]
  · rw [if_neg h4] at hok
    by_cases h3 : t.numCols = 3
    · rw [if_pos h3] at hok
      cases hok
      refine ⟨Or.inl h3, by simp, ?_⟩
      intro i hi hi2
      simp [h4]
    · rw [if_neg h3] at hok
      cases hok

/-- Witness for C1's amended theorem at the concrete 4-column table. -/
theorem normalize_accepted_counts_witness :
    load_data fourColTable = .ok
      [⟨.str "2024-12-04", .str "08:00:00", .num 1, .str "http://img/1.jpg"⟩,
       ⟨.str "2024-12-05", .str "09:30:00", .num 0, .null⟩] ∧
    ((fourColTable.numCols = 3 ∨ fourColTable.numCols = 4) ∧
     ([⟨.str "2024-12-04", .str "08:00:00", .num 1, .str "http://img/1.jpg"⟩,
       ⟨.str "2024-12-05", .str "09:30:00", .num 0, .null⟩] : List Row).length
        = fourColTable.rows.length ∧
     ∀ i (hi : i < ([⟨.str "2024-12-04", .str "08:00:00", .num 1,
            .str "http://img/1.jpg"⟩,
          ⟨.str "2024-12-05", .str "09:30:00", .num 0, .null⟩] : List Row).length)
        (hi2 : i < fourColTable.rows.length),
       (([⟨.str "2024-12-04", .str "08:00:00", .num 1, .str "http://img/1.jpg"⟩,
          ⟨.str "2024-12-05", .str "09:30:00", .num 0, .null⟩] : List Row).get
            ⟨i, hi⟩).date = (fourColTable.rows.get ⟨i, hi2⟩).getD 0 Cell.null ∧
       (([⟨.str "2024-12-04", .str "08:00:00", .num 1, .str "http://img/1.jpg"⟩,
          ⟨.str "2024-12-05", .str "09:30:00", .num 0, .null⟩] : List Row).get
            ⟨i, hi⟩).time = (fourColTable.rows.get ⟨i, hi2⟩).getD 1 Cell.null ∧
       (([⟨.str "2024-12-04", .str "08:00:00", .num 1, .str "http://img/1.jpg"⟩,
          ⟨.str "2024-12-05", .str "09:30:00", .num 0, .null⟩] : List Row).get
            ⟨i, hi⟩).detection
          = (fourColTable.rows.get ⟨i, hi2⟩).getD 2 Cell.null ∧
       (([⟨.str "2024-12-04", .str "08:00:00", .num 1, .str "http://img/1.jpg"⟩,
          ⟨.str "2024-12-05", .str "09:30:00", .num 0, .null⟩] : List Row).get
            ⟨i, hi⟩).image_url
          = (if fourColTable.numCols = 4 then
               (fourColTable.rows.get ⟨i, hi2⟩).getD 3 Cell.null
             else Cell.null)) :=
  ⟨rfl, normalize_accepted_counts fourColTable _ rfl⟩

/-- C4: the entire historical-metrics block sits under the `else` of
    `if not df.empty` (lines 70/96): a non-empty table renders only the
    live-detection section and none of the aggregate statistics, while the
    empty table is the one that runs the metrics block. -/
theorem metrics_block_only_for_empty_table (t : RawTable) (rows : List Row)
    (hok : load_data t = .ok rows) :
    (rows ≠ [] → runScript t = .ok { live := rows.getLast?, metrics := none }) ∧
    (rows = [] →
      runScript t = .ok { live := none, metrics := some (metricsBlock []) }) := by
  constructor
  · intro hne
    rw [runScript, hok]
    cases rows with
    | nil => exact absurd rfl hne
    | cons r rs => rfl
  · intro he
    subst he
    rw [runScript, hok]
    rfl

/-- Witness for C4 at the concrete non-empty one-row table and at the empty
    table. -/
theorem metrics_block_only_for_empty_table_witness :
    load_data oneRowTable = .ok [exRowGood] ∧
    (([exRowGood] ≠ ([] : List Row) →
        runScript oneRowTable
          = .ok { live := [exRowGood].getLast?, metrics := none }) ∧
     ([exRowGood] = ([] : List Row) →
        runScript oneRowTable
          = .ok { live := none, metrics := some (metricsBlock []) })) :=
  ⟨rfl, metrics_block_only_for_empty_table oneRowTable [exRowGood] rfl⟩

/-- C5 counterexample: the claim says the error message includes the accepted
    set `\x7b2, 3, 4\x7d`; the message for a 5-column table does contain the
    actual count "5" but contains no character "2" at all — the code's
    accepted set is 3 or 4, not 2, 3, 4. -/
theorem five_column_message_omits_two :
    load_data fiveColTable = .error (schemaErrorMsg 5) ∧
    containsStr (schemaErrorMsg 5) "5" = true ∧
    containsStr (schemaErrorMsg 5) "2" = false :=
  ⟨rfl, by decide, by decide⟩

/-- C5 (amended): any table-wide column count other than 3 or 4 — including
    2 — makes `load_data` fail with the schema error, a hard stop for the
    whole table; the message reports the actual count and the accepted
    counts as "3 or 4". -/
theorem schema_error_reports_count (t : RawTable) (h3 : t.numCols ≠ 3)
    (h4 : t.numCols ≠ 4) :
    load_data t = .error (schemaErrorMsg t.numCols) ∧
    containsStr (schemaErrorMsg t.numCols) (toString t.numCols) = true ∧
    containsStr (schemaErrorMsg t.numCols) "3 or 4" = true := by
  refine ⟨by rw [load_data, if_neg h4, if_neg h3], ?_, ?_⟩
  · apply containsStr_of_parts _ _ ("Dataframe has ".toList)
      (" columns, but 3 or 4 columns are expected.".toList)
    simp [schemaErrorMsg, String.toList, String.data_append]
  · apply containsStr_of_parts _ _
      ("Dataframe has ".toList ++ (toString t.numCols).toList
        ++ " columns, but ".toList)
      (" columns are expected.".toList)
    simp only [schemaErrorMsg, String.toList, String.data_append,
      List.append_assoc]
    congr 1

/-- Witness for C5's amended theorem at the concrete 5-column table. -/
theorem schema_error_reports_count_witness :
    fiveColTable.numCols ≠ 3 ∧ fiveColTable.numCols ≠ 4 ∧
    (load_data fiveColTable = .error (schemaErrorMsg fiveColTable.numCols) ∧
     containsStr (schemaErrorMsg fiveColTable.numCols)
        (toString fiveColTable.numCols) = true ∧
     containsStr (schemaErrorMsg fiveColTable.numCols) "3 or 4" = true) :=
  ⟨by decide, by decide,
    schema_error_reports_count fiveColTable (by decide) (by decide)⟩

/-- C8: `last_event` is the final row in source order whenever the table is
    non-empty (line 71, `df.iloc[-1]`, not filtered by time validity) —
    `out.live = rows.getLast?` covers both cases — and the empty table
    yields, without crashing, all-zero numeric fields, a 24-bucket zeroed
    histogram, an empty cumulative series, and no last event. -/
theorem last_event_and_empty_stats (t : RawTable) (rows : List Row)
    (hok : load_data t = .ok rows) :
    ∃ out, runScript t = .ok out ∧
      out.live = rows.getLast? ∧
      (rows = [] → out.metrics = some
        { totalImages := 0, totalDetections := 0, detectionRate := 0,
          avgPerHour := 0, cumSeries := [], stopped := false,
          histogram := some ((List.range 24).map fun h => (h, 0)),
          dataTable := some [] }) := by
  rw [runScript, hok]
  cases rows with
  | nil =>
    exact ⟨{ live := none, metrics := some (metricsBlock []) }, rfl, rfl,
      fun _ => rfl⟩
  | cons r rs =>
    exact ⟨{ live := (r :: rs).getLast?, metrics := none }, rfl, rfl,
      fun hc => absurd hc (by simp)⟩

/-- Witness for C8 at the concrete empty 3-column table. -/
theorem last_event_and_empty_stats_witness :
    load_data emptyTable = .ok ([] : List Row) ∧
    (∃ out, runScript emptyTable = .ok out ∧
      out.live = ([] : List Row).getLast? ∧
      (([] : List Row) = [] → out.metrics = some
        { totalImages := 0, totalDetections := 0, detectionRate := 0,
          avgPerHour := 0, cumSeries := [], stopped := false,
          histogram := some ((List.range 24).map fun h => (h, 0)),
          dataTable := some [] })) :=
  ⟨rfl, last_event_and_empty_stats emptyTable [] rfl⟩

/-- C2 counterexample: on a table whose first row has unparseable time
    `"25:99:00"` (flag 0) and second row a valid time (flag 1), the code's
    series is `[0, 50]` — computed over all rows with the original index —
    while the claim's filter-first-then-index series would be `[100]`. -/
theorem cumsum_unfiltered_counterexample :
    detection_cumsum exMixed = [0, 50] ∧
    cumulative_rate_series_spec exMixed = [100] ∧
    detection_cumsum exMixed ≠ cumulative_rate_series_spec exMixed := by
  have h1 : detection_cumsum exMixed = [0, 50] := by
    simp [detection_cumsum, exMixed, exRowBad, exRowGood, cumsumFrom, flagOf,
      List.range_succ]
    norm_num
  have h2 : cumulative_rate_series_spec exMixed = [100] := by
    rw [cumulative_rate_series_spec, show validRows exMixed = [exRowGood] from rfl]
    simp [exRowGood, cumsumFrom, flagOf, List.range_succ]
  refine ⟨h1, h2, fun hc => ?_⟩
  rw [h1, h2] at hc
  have := congrArg List.length hc
  simp at this

/-- C2 (amended): the cumulative series is computed over ALL rows of the
    table using the original row index, with no exclusion of invalid-time
    rows: it has one value per row, and the value at original position `i`
    is `sum(flag[0..i]) / (i + 1) * 100`. -/
theorem cumsum_value_at_original_index (rows : List Row) (i : Nat)
    (h : i < rows.length) :
    (detection_cumsum rows).length = rows.length ∧
    (detection_cumsum rows).getD i 0 =
      (((rows.take (i + 1)).map flagOf).sum : ℚ) / ((i : ℚ) + 1) * 100 :=
  ⟨detection_cumsum_length rows, detection_cumsum_getD rows i h⟩

/-- Witness for C2's amended theorem: at `exMixed`, position 1 (the
    valid-time row), the value is `(0 + 1) / 2 * 100 = 50`, not the `100`
    the filtered indexing would give. -/
theorem cumsum_value_at_original_index_witness :
    1 < exMixed.length ∧
    ((detection_cumsum exMixed).length = exMixed.length ∧
     (detection_cumsum exMixed).getD 1 0 = 50) := by
  refine ⟨by decide, ?_⟩
  obtain ⟨hl, hv⟩ := cumsum_value_at_original_index exMixed 1 (by decide)
  refine ⟨hl, ?_⟩
  rw [hv]
  norm_num [exMixed, exRowBad, exRowGood, flagOf]

/-- C3 counterexample: with the row carrying time `"25:99:00"` present, the
    metrics block DOES abort — the hour parse of line 146 raises and
    lines 147-149 stop the script — so the hourly histogram is never
    produced at all (the claim says the row is merely excluded from it). -/
theorem bad_time_aborts_aggregation :
    (metricsBlock exMixed).stopped = true ∧
    (metricsBlock exMixed).histogram = none := ⟨rfl, rfl⟩

/-- C3 (amended): on a table containing a row with unparseable time, the
    statistics computed before the hour-parse step are produced — the bad
    row still counted in `total_count` and still indexed in the cumulative
    series — but the hour parse fails and the script stops: the hourly
    histogram and the data table are not produced. (In the script as
    written the metrics block itself is only reached when the table is
    empty; this describes the block's behaviour on the rows it reads.) -/
theorem bad_time_stops_metrics_block (rows : List Row)
    (hbad : ∃ r ∈ rows, cellHour r.time = none) :
    (metricsBlock rows).stopped = true ∧
    (metricsBlock rows).histogram = none ∧
    (metricsBlock rows).dataTable = none ∧
    (metricsBlock rows).totalImages = rows.length ∧
    (metricsBlock rows).cumSeries.length = rows.length := by
  have he := parseHours_error_of_bad rows hbad
  simp [metricsBlock, he, total_images, detection_cumsum_length]

/-- Witness for C3's amended theorem at the one-row table with the bad
    time. -/
theorem bad_time_stops_metrics_block_witness :
    (∃ r ∈ [exRowBad], cellHour r.time = none) ∧
    ((metricsBlock [exRowBad]).stopped = true ∧
     (metricsBlock [exRowBad]).histogram = none ∧
     (metricsBlock [exRowBad]).dataTable = none ∧
     (metricsBlock [exRowBad]).totalImages = [exRowBad].length ∧
     (metricsBlock [exRowBad]).cumSeries.length = [exRowBad].length) :=
  ⟨⟨exRowBad, by simp, rfl⟩,
    bad_time_stops_metrics_block [exRowBad] ⟨exRowBad, by simp, rfl⟩⟩

/-- C6 counterexample: the claim says every input yields a 24-key histogram,
    but for this non-empty one-row table the program renders the live
    section only and no histogram (no metrics at all): the heatmap block is
    in the empty-table branch. -/
theorem histogram_absent_for_nonempty_table :
    runScript oneRowTable = .ok { live := some exRowGood, metrics := none } :=
  rfl

/-- C6 (amended): whenever the heatmap block runs to completion — in the
    script as written, exactly when the table is empty, and in general
    whenever every time parses so that the histogram is produced — the
    histogram has exactly 24 buckets, keyed by hours 0-23 in order, and the
    bucket for hour `h` holds the sum of the flags of the rows whose parsed
    time falls in hour `h` (0 when no row does). -/
theorem histogram_24_buckets (rows : List Row) (hm : List (Nat × Int))
    (hsome : (metricsBlock rows).histogram = some hm) :
    hm.length = 24 ∧
    ∀ h : Nat, h < 24 →
      hm.getD h (0, 0) =
        (h, ((rows.filter fun r => cellHour r.time = some h).map flagOf).sum) := by
  cases hpe : parseHours rows with
  | error e =>
    simp only [metricsBlock, hpe] at hsome
    cases hsome
  | ok hrows =>
    simp only [metricsBlock, hpe, Option.some.injEq] at hsome
    subst hsome
    constructor
    · simp [heatmap_data]
    · intro h hh
      rw [heatmap_data, List.getD_eq_getElem?_getD,
        List.getElem?_map _ (List.range 24) h, List.getElem?_range hh,
        Option.map_some', Option.getD_some,
        parseHours_ok_filter rows hrows hpe h]

/-- Witness for C6's amended theorem at the one-row table with valid time
    `08:00:00` and flag 1. -/
theorem histogram_24_buckets_witness :
    (metricsBlock [exRowGood]).histogram = some (heatmap_data [(exRowGood, 8)]) ∧
    ((heatmap_data [(exRowGood, 8)]).length = 24 ∧
     ∀ h : Nat, h < 24 →
       (heatmap_data [(exRowGood, 8)]).getD h (0, 0) =
         (h, (([exRowGood].filter fun r => cellHour r.time = some h).map
             flagOf).sum)) :=
  ⟨rfl, histogram_24_buckets [exRowGood] (heatmap_data [(exRowGood, 8)]) rfl⟩

/-- C7: with flags in {0, 1} (the data-model invariant), `detection_rate`
    equals `detected / total * 100` and is 0 exactly when `total_count` is
    0, and `avg_detections_per_hour` equals `detected / 24` and is 0
    exactly when `detected_count` is 0 — the code's `> 0` guards coincide
    with the claim's `== 0` defaults. -/
theorem rate_and_avg_defined (rows : List Row)
    (hf : ∀ r ∈ rows, flagOf r = 0 ∨ flagOf r = 1) :
    detection_rate rows =
      (if total_images rows = 0 then 0
       else (total_detections rows : ℚ) / (total_images rows : ℚ) * 100) ∧
    avg_detections_per_hour rows =
      (if total_detections rows = 0 then 0
       else (total_detections rows : ℚ) / 24) := by
  constructor
  · rw [detection_rate]
    rcases Nat.eq_zero_or_pos (total_images rows) with h0 | hpos
    · rw [if_neg (by omega), if_pos h0]
    · rw [if_pos hpos, if_neg (by omega)]
  · rw [avg_detections_per_hour]
    have hnn := total_detections_nonneg rows hf
    rcases eq_or_lt_of_le hnn with h0 | hpos
    · rw [if_neg (by omega), if_pos h0.symm]
    · rw [if_pos hpos, if_neg (by omega)]

/-- Witness for C7 at the two-row table `exMixed` (flags 0 and 1). -/
theorem rate_and_avg_defined_witness :
    (∀ r ∈ exMixed, flagOf r = 0 ∨ flagOf r = 1) ∧
    (detection_rate exMixed =
       (if total_images exMixed = 0 then 0
        else (total_detections exMixed : ℚ) / (total_images exMixed : ℚ) * 100) ∧
     avg_detections_per_hour exMixed =
       (if total_detections exMixed = 0 then 0
        else (total_detections exMixed : ℚ) / 24)) :=
  ⟨by decide, rate_and_avg_defined exMixed (by decide)⟩

/-- C9: under the data-model invariant that every flag is 0 or 1, every
    value of the cumulative series lies in [0, 100]: the running flag sum
    over the first `i + 1` rows is between 0 and `i + 1`. -/
theorem cumulative_series_bounded (rows : List Row)
    (hf : ∀ r ∈ rows, flagOf r = 0 ∨ flagOf r = 1) :
    ∀ v ∈ detection_cumsum rows, 0 ≤ v ∧ v ≤ 100 := by
  intro v hv
  rw [detection_cumsum] at hv
  obtain ⟨i, hi, hvi⟩ := List.mem_map.mp hv
  have hilt : i < rows.length := List.mem_range.mp hi
  rw [cumsumFrom_getD _ 0 i (by simpa using hilt), zero_add,
    ← List.map_take] at hvi
  obtain ⟨hs0, hsk⟩ := flags_take_bounds rows hf (i + 1)
  subst hvi
  have hipos : (0 : ℚ) < (i : ℚ) + 1 := by positivity
  refine ⟨mul_nonneg (div_nonneg ?_ (le_of_lt hipos)) (by norm_num), ?_⟩
  · exact_mod_cast hs0
  · have hle : ((((rows.take (i + 1)).map flagOf).sum : Int) : ℚ)
        ≤ (i : ℚ) + 1 := by
      exact_mod_cast hsk
    calc (((rows.take (i + 1)).map flagOf).sum : ℚ) / ((i : ℚ) + 1) * 100
        ≤ 1 * 100 := by
          apply mul_le_mul_of_nonneg_right _ (by norm_num)
          exact (div_le_one hipos).mpr hle
      _ = 100 := one_mul 100

/-- Witness for C9 at the two-row table `exMixed` (flags 0 and 1). -/
theorem cumulative_series_bounded_witness :
    (∀ r ∈ exMixed, flagOf r = 0 ∨ flagOf r = 1) ∧
    (∀ v ∈ detection_cumsum exMixed, 0 ≤ v ∧ v ≤ 100) :=
  ⟨by decide, cumulative_series_bounded exMixed (by decide)⟩

/-- C10: the script never imports the name `time` (line 3 imports only
    `datetime` and `timedelta` from the `datetime` module), so the clock
    loop's first iteration resolves `get_current_time` and
    `clock_placeholder`, then fails at `time.sleep(1)` with an unhandled
    `NameError`: only 2 of the 5 body statements complete, and the loop
    never finishes an iteration. -/
theorem clock_loop_raises_name_error :
    scriptTopLevelNames.contains "time" = false ∧
    runStmts scriptTopLevelNames clockLoopBody =
      .error "NameError: name time is not defined" ∧
    stmtsCompleted scriptTopLevelNames clockLoopBody = 2 ∧
    clockLoopBody.length = 5 :=
  ⟨by decide, rfl, rfl, rfl⟩
